import Mathlib

/-!
Verification development for the `spispiza` repository (a minimal
tool-calling agent, `tinyagent.py`, plus a YNAB REST connector,
`connectors/ynab.py`).

The Python sources are shallowly embedded as Lean definitions:

* Python values flowing through the dispatcher are `PyObj`; Python
  exceptions are `PyError`, and fallible Python code returns
  `Except PyError _` (a `.error` result models an uncaught raised
  exception propagating to the caller).
* The local CSV row store (`mem/<name>.csv`) is `FS`, an association
  list from file path to the list of CSV records in the file.  A CSV
  record is the list of its fields; the textual quoting layer of
  Python's `csv` module (
  which is lossless for string fields) is abstracted to this record
  layer, while the `DictWriter`/`DictReader` logic — header creation on
  first write, value ordering by the writer's own fieldnames, pairing
  of the stored header with each row on read, `restkey`/`restval`
  handling, blank-row skipping — is modelled faithfully.
* External collaborators (the OpenAI chat endpoint, Python's `eval`
  builtin, the HTTP transport used by `requests`) are oracle
  parameters: the model response is a `Response` argument, argument
  decoding is an `evalFn` argument, and HTTP is an `Http` argument.
  Every embedded connector call also returns the list of HTTP requests
  it issued, so "no request was sent" is expressible.
* Exact rational arithmetic (`ℚ`) stands in for Python numbers; `int()`
  truncation toward zero is `int_trunc`.
-/

/-- Python exceptions that the embedded code can raise. -/
inductive PyError where
  | valueError (msg : String)
  | typeError (msg : String)
  | attributeError (msg : String)
  | keyError (key : String)
  | fileNotFound (path : String)
  | syntaxError (msg : String)
  | httpError (status : Nat)
  | openaiError (msg : String)
deriving DecidableEq, Repr

/-- Python runtime values that cross the dispatcher boundary: strings,
None, integers, lists and dicts.  Dict keys are `Option String` because
`csv.DictReader` can produce a dict whose `restkey` is the Python value
`None` (modelled as `none`); ordinary string keys are `some _`. -/
inductive PyObj where
  | pstr (s : String)
  | pnone
  | pint (n : Int)
  | plist (items : List PyObj)
  | pdict (entries : List (Option String × PyObj))

/-- Single-quote character, written via its code point to keep source
lines free of bare quote characters. -/
def squoteChar : Char := Char.ofNat 39

/-- Double-quote character. -/
def dquoteChar : Char := Char.ofNat 34

/-- Escape one character the way Python `repr` escapes it inside a
string literal quoted by `q`. -/
def pyEscapeChar (q : Char) (c : Char) : String :=
  if c = '\\' then "\\\\"
  else if c = q then "\\" ++ String.singleton q
  else if c = '\n' then "\\n"
  else if c = '\r' then "\\r"
  else if c = '\t' then "\\t"
  else String.singleton c

/-- Python `repr` of a `str`: single quotes by default, double quotes
when the text contains a single quote but no double quote. -/
def pyReprStr (s : String) : String :=
  let q := if s.toList.contains squoteChar && !(s.toList.contains dquoteChar)
           then dquoteChar else squoteChar
  String.singleton q ++ String.join (s.toList.map (pyEscapeChar q)) ++ String.singleton q

/-- Python `repr` of a dict key (`None` or a string). -/
def pyReprKey : Option String → String
  | some s => pyReprStr s
  | none => "None"

mutual

/-- Python `repr` of a `PyObj`. -/
def pyRepr : PyObj → String
  | .pstr s => pyReprStr s
  | .pnone => "None"
  | .pint n => toString n
  | .plist items => "[" ++ pyReprList items ++ "]"
  | .pdict entries => "\x7b" ++ pyReprDict entries ++ "\x7d"

/-- Comma-separated `repr` of list elements. -/
def pyReprList : List PyObj → String
  | [] => ""
  | [x] => pyRepr x
  | x :: xs => pyRepr x ++ ", " ++ pyReprList xs

/-- Comma-separated `repr` of dict entries. -/
def pyReprDict : List (Option String × PyObj) → String
  | [] => ""
  | [(k, v)] => pyReprKey k ++ ": " ++ pyRepr v
  | (k, v) :: xs => pyReprKey k ++ ": " ++ pyRepr v ++ ", " ++ pyReprDict xs

end

/-- Python `str()` (what an f-string interpolates): the text itself for
a `str`, `repr` for every other value modelled here. -/
def pyStr : PyObj → String
  | .pstr s => s
  | x => pyRepr x

/-- One CSV record: the list of its textual fields. -/
abbrev Record := List String

/-- The on-disk store: association list from file path (for example
`mem/notes.csv`) to the records the file holds, in file order. -/
abbrev FS := List (String × List Record)

/-- Contents of a file, `none` when the path does not exist. -/
def lookupFS : FS → String → Option (List Record)
  | [], _ => none
  | (k, v) :: rest, key => if k = key then some v else lookupFS rest key

/-- Write a file: replace its records when the path exists, create it
otherwise. -/
def insertFS : FS → String → List Record → FS
  | [], key, v => [(key, v)]
  | (k, w) :: rest, key, v =>
      if k = key then (key, v) :: rest else (k, w) :: insertFS rest key v

/-- Python `str()` of a dict key, as `csv.DictWriter` stringifies
fieldnames when writing the header row. -/
def keyStr : Option String → String
  | some s => s
  | none => "None"

/-- Embedding of `tinyagent.write_csv` (tinyagent.py lines 14-20):
`mem/<name>.csv` is opened in append mode; a `DictWriter` is built with
`fieldnames = row.keys()`; the header (the row's own keys) is written
first when the file did not exist; then the row's values are appended
in the order of the row's own keys.  A non-dict `row` raises
`AttributeError` at `row.keys()`.  Python `write_csv` returns `None`. -/
def write_csv (name : PyObj) (row : PyObj) (fs : FS) : (Except PyError PyObj) × FS :=
  match row with
  | .pdict entries =>
      let fn := "mem/" ++ pyStr name ++ ".csv"
      let fieldnames := entries.map (fun e => keyStr e.1)
      let vals := entries.map (fun e => pyStr e.2)
      let newRecs :=
        match lookupFS fs fn with
        | none => [fieldnames, vals]
        | some recs => recs ++ [vals]
      (.ok .pnone, insertFS fs fn newRecs)
  | _ => (.error (.attributeError "keys"), fs)

/-- Insert into a Python dict: replace the value in place when the key
is present, append the pair otherwise. -/
def setEntry : List (Option String × PyObj) → Option String → PyObj →
    List (Option String × PyObj)
  | [], k, v => [(k, v)]
  | (k2, v2) :: rest, k, v =>
      if k2 = k then (k2, v) :: rest else (k2, v2) :: setEntry rest k v

/-- Build a Python dict from a pair list, later assignments winning, as
`dict(zip(...))` followed by further assignments does. -/
def buildDict (ps : List (Option String × PyObj)) : List (Option String × PyObj) :=
  ps.foldl (fun acc p => setEntry acc p.1 p.2) []

/-- Pair one data record with the stored fieldnames the way
`csv.DictReader` does: `dict(zip(fieldnames, row))`, extra fields
collected as a list under the `restkey` `None`, missing fields filled
with the `restval` `None`. -/
def readerRow (fieldnames : List String) (r : Record) : List (Option String × PyObj) :=
  let base := (List.zip fieldnames r).map
    (fun p => ((some p.1 : Option String), PyObj.pstr p.2))
  let withRest :=
    if fieldnames.length < r.length then
      base ++ [((none : Option String),
        PyObj.plist ((r.drop fieldnames.length).map PyObj.pstr))]
    else
      base ++ (fieldnames.drop r.length).map
        (fun k => ((some k : Option String), PyObj.pnone))
  buildDict withRest

/-- Parse a whole file as `list(csv.DictReader(f))`: the first record is
the header, blank records among the rest are skipped, every other
record becomes a dict. -/
def dictReaderParse : List Record → List PyObj
  | [] => []
  | hdr :: rest => (rest.filter (fun r => !r.isEmpty)).map
      (fun r => PyObj.pdict (readerRow hdr r))

/-- Embedding of `tinyagent.read_csv` (tinyagent.py lines 11-12): open
`mem/<name>.csv` (raising `FileNotFoundError` when absent) and return
`list(csv.DictReader(f))`. -/
def read_csv (name : PyObj) (fs : FS) : Except PyError PyObj :=
  let fn := "mem/" ++ pyStr name ++ ".csv"
  match lookupFS fs fn with
  | none => .error (.fileNotFound fn)
  | some recs => .ok (.plist (dictReaderParse recs))

/-- Embedding of `tinyagent.get_calendar_events` (tinyagent.py lines
22-30): returns the hard-coded mock event list. -/
def get_calendar_events : PyObj :=
  .plist
    [ .pdict [(some "title", .pstr "Team Meeting"),
              (some "start", .pstr "2023-10-10T10:00:00"),
              (some "end", .pstr "2023-10-10T11:00:00")],
      .pdict [(some "title", .pstr "Lunch with Client"),
              (some "start", .pstr "2023-10-10T12:30:00"),
              (some "end", .pstr "2023-10-10T13:30:00")] ]

/-- Lookup in a Python dict (first matching key; keys built by
`buildDict` are unique). -/
def dictLookup : List (Option String × PyObj) → Option String → Option PyObj
  | [], _ => none
  | (k, v) :: rest, key => if k = key then some v else dictLookup rest key

/-- Python `==` on (flat) dicts: the two assign the same value to every
key.  For the string-valued rows the CSV store traffics in, this is
exactly Python dict equality. -/
def pyDictEqv (a b : List (Option String × PyObj)) : Prop :=
  ∀ k, dictLookup a k = dictLookup b k

/-- One property of a JSON-schema parameter object. -/
structure ParamSpec where
  type : String
  description : String
deriving DecidableEq, Repr

/-- A JSON-schema parameters object: type, named properties, required
property names. -/
structure ParamsSchema where
  type : String
  properties : List (String × ParamSpec)
  required : List String
deriving DecidableEq, Repr

/-- A tool descriptor: name, description and parameter schema.  This is
both the shape of each `TOOLS_SPEC` entry in tinyagent.py (under its
`function` key) and the payload the `@tool` decorator of
connectors/ynab.py (lines 8-17) attaches to a function as
`fn.__tool__`. -/
structure ToolSpec where
  name : String
  description : String
  parameters : ParamsSchema
deriving DecidableEq, Repr

/-- Embedding of `TOOLS_SPEC` (tinyagent.py lines 33-84): the static
list of tool specs advertised to the model.  It lists exactly
`read_csv`, `write_csv` and `get_calendar_events`. -/
def TOOLS_SPEC : List ToolSpec :=
  [ { name := "read_csv",
      description := "Fetch memory rows from a CSV file",
      parameters :=
        { type := "object",
          properties := [("name",
            { type := "string",
              description := "Name of the CSV file (without extension)" })],
          required := ["name"] } },
    { name := "write_csv",
      description := "Write a row to a CSV file",
      parameters :=
        { type := "object",
          properties :=
            [("name",
              { type := "string",
                description := "Name of the CSV file (without extension)" }),
             ("row",
              { type := "object",
                description := "Data to write as a row" })],
          required := ["name", "row"] } },
    { name := "get_calendar_events",
      description := "Fetch calendar events",
      parameters := { type := "object", properties := [], required := [] } } ]

/-- Functions of connectors/ynab.py marked by the `@tool` decorator,
with the name, description and parameter schema each decoration
carries (ynab.py lines 29-37, 44-57, 64-85, 104-117, 141-178), in
definition order. -/
def ynab_marked_tools : List ToolSpec :=
  [ { name := "get_budgets",
      description := "Get a list of budgets from YNAB",
      parameters := { type := "object", properties := [], required := [] } },
    { name := "get_accounts",
      description := "Get a list of accounts for a specific budget",
      parameters :=
        { type := "object",
          properties := [("budget_id",
            { type := "string",
              description := "The ID of the budget to get accounts from" })],
          required := ["budget_id"] } },
    { name := "get_transactions",
      description := "Get transactions for a specific account",
      parameters :=
        { type := "object",
          properties :=
            [("budget_id",
              { type := "string", description := "The ID of the budget" }),
             ("account_id",
              { type := "string", description := "The ID of the account" }),
             ("since_date",
              { type := "string",
                description := "The earliest date for transactions (YYYY-MM-DD)" })],
          required := ["budget_id", "account_id"] } },
    { name := "get_budget_summary",
      description := "Get a summary of budget categories and their balances",
      parameters :=
        { type := "object",
          properties := [("budget_id",
            { type := "string", description := "The ID of the budget" })],
          required := ["budget_id"] } },
    { name := "create_transaction",
      description := "Create a new transaction in YNAB",
      parameters :=
        { type := "object",
          properties :=
            [("budget_id",
              { type := "string", description := "The ID of the budget" }),
             ("account_id",
              { type := "string", description := "The ID of the account" }),
             ("date",
              { type := "string",
                description := "The date of the transaction (YYYY-MM-DD)" }),
             ("amount",
              { type := "number",
                description := "The amount of the transaction (negative for outflow, positive for inflow)" }),
             ("payee_name",
              { type := "string", description := "The name of the payee" }),
             ("category_id",
              { type := "string", description := "The ID of the category" }),
             ("memo",
              { type := "string", description := "A memo for the transaction" })],
          required := ["budget_id", "account_id", "date", "amount", "payee_name"] } } ]

/-- The callables the dispatcher can reach. -/
inductive ToolFn where
  | read_csv_fn
  | write_csv_fn
  | get_calendar_events_fn
deriving DecidableEq, Repr

/-- Name resolution performed by the dispatcher's `if`/`elif` chain
(tinyagent.py lines 110-117): each of the three hard-coded names maps
to exactly one callable; every other name falls through to the
`Unknown function` branch (`none` here). -/
def resolveTool (name : String) : Option ToolFn :=
  if name = "read_csv" then some .read_csv_fn
  else if name = "write_csv" then some .write_csv_fn
  else if name = "get_calendar_events" then some .get_calendar_events_fn
  else none

/-- Keyword arguments decoded from a tool call's raw argument string. -/
abbrev Kwargs := List (String × PyObj)

/-- Keyword binding for `read_csv(name)`: exactly the keyword `name`
must be supplied, as `read_csv(**function_args)` requires. -/
def bind_read_csv (args : Kwargs) : Except PyError PyObj :=
  match List.lookup "name" args with
  | some v =>
      if args.length = 1 then .ok v
      else .error (.typeError "read_csv() got an unexpected keyword argument")
  | none => .error (.typeError "read_csv() missing 1 required positional argument")

/-- Keyword binding for `write_csv(name, row)`: exactly the keywords
`name` and `row` must be supplied. -/
def bind_write_csv (args : Kwargs) : Except PyError (PyObj × PyObj) :=
  match List.lookup "name" args, List.lookup "row" args with
  | some n, some r =>
      if args.length = 2 then .ok (n, r)
      else .error (.typeError "write_csv() got an unexpected keyword argument")
  | _, _ => .error (.typeError "write_csv() missing required positional arguments")

/-- Dispatch of one resolved call (tinyagent.py lines 110-117): invoke
the matched connector with the decoded keyword arguments, or produce
the `Unknown function: <name>` string for an unresolvable name.  The
returned `FS` is the store after the call (unchanged when the call
raised or did not write). -/
def invokeTool (name : String) (args : Kwargs) (fs : FS) :
    (Except PyError PyObj) × FS :=
  match resolveTool name with
  | some .read_csv_fn =>
      (match bind_read_csv args with
       | .error e => (.error e, fs)
       | .ok v => (read_csv v fs, fs))
  | some .write_csv_fn =>
      (match bind_write_csv args with
       | .error e => (.error e, fs)
       | .ok (n, r) => write_csv n r fs)
  | some .get_calendar_events_fn => (.ok get_calendar_events, fs)
  | none => (.ok (.pstr ("Unknown function: " ++ name)), fs)

/-- The `function` payload of one tool call in the model response:
`tool_call.function.name` and the raw argument text
`tool_call.function.arguments`. -/
structure ToolCallFunction where
  name : String
  arguments : String
deriving DecidableEq, Repr

/-- One tool call of the model response. -/
structure ToolCall where
  function : ToolCallFunction
deriving DecidableEq, Repr

/-- The message of a response choice.  `tool_calls` is doubly optional
to keep the distinctions the Python code makes: `none` models an object
without a `tool_calls` attribute (`hasattr` false), `some none` models
the attribute holding Python `None` (what the OpenAI client returns
when the model requested no tool call), and `some (some calls)` the
attribute holding a list. -/
structure Message where
  content : String
  tool_calls : Option (Option (List ToolCall))

/-- One choice of the model response (its `message`; the code never
reads other fields). -/
structure Choice where
  message : Message

/-- The model response: its list of choices.  An object without a
`choices` attribute behaves like an empty list here (tinyagent.py line
96 treats both the same way). -/
structure Response where
  choices : List Choice

/-- An argument decoder standing for Python's `eval` builtin applied to
the raw argument text (tinyagent.py line 108): it yields keyword
arguments or raises. -/
abbrev EvalFn := String → Except PyError Kwargs

/-- Processing of one tool call inside the dispatcher's loop
(tinyagent.py lines 106-119): decode the arguments with `eval`, invoke
the matched branch, then format the line
`f"<name> result: <result>"`.  No exception of either step is caught:
an `.error` propagates to the caller of `process_tool_calls`. -/
def execCall (evalFn : EvalFn) (c : ToolCall) (fs : FS) :
    (Except PyError String) × FS :=
  match evalFn c.function.arguments with
  | .error e => (.error e, fs)
  | .ok args =>
      match invokeTool c.function.name args fs with
      | (.error e, fs2) => (.error e, fs2)
      | (.ok r, fs2) => (.ok (c.function.name ++ " result: " ++ pyStr r), fs2)

/-- The dispatcher's `for tool_call in tool_calls` loop (tinyagent.py
lines 106-119), threading the store: the first uncaught exception
aborts the loop, discarding the lines already collected while keeping
the store mutations already performed. -/
def runCalls (evalFn : EvalFn) : List ToolCall → FS →
    (Except PyError (List String)) × FS
  | [], fs => (.ok [], fs)
  | c :: rest, fs =>
      match execCall evalFn c fs with
      | (.error e, fs2) => (.error e, fs2)
      | (.ok line, fs2) =>
          match runCalls evalFn rest fs2 with
          | (.error e, fs3) => (.error e, fs3)
          | (.ok lines, fs3) => (.ok (line :: lines), fs3)

/-- Embedding of `tinyagent.process_tool_calls` (tinyagent.py lines
94-121).  Empty (or absent) `choices` yields `"No response received"`.
A message without a `tool_calls` attribute yields the message's
`content`.  A `tool_calls` attribute holding Python `None` makes the
`for` loop raise `TypeError` (line 106 iterates `None`).  Otherwise the
calls run in order and the collected lines are joined with
newlines. -/
def process_tool_calls (evalFn : EvalFn) (response : Response) (fs : FS) :
    (Except PyError String) × FS :=
  match response.choices with
  | [] => (.ok "No response received", fs)
  | choice :: _ =>
      match choice.message.tool_calls with
      | none => (.ok choice.message.content, fs)
      | some none =>
          (.error (.typeError "\x27NoneType\x27 object is not iterable"), fs)
      | some (some calls) =>
          match runCalls evalFn calls fs with
          | (.error e, fs2) => (.error e, fs2)
          | (.ok lines, fs2) => (.ok (String.intercalate "\n" lines), fs2)

/-- Raw argument text `\x7b\x7d` (an empty Python dict literal). -/
def argsEmpty : String := "\x7b\x7d"

/-- Raw argument text decoding to `name = "missing"`. -/
def argsReadMissing : String := "\x7b\x27name\x27: \x27missing\x27\x7d"

/-- Raw argument text `\x7b` — an unclosed brace, malformed for
Python `eval`. -/
def argsMalformed : String := "\x7b"

/-- Python's `eval` builtin restricted to the raw argument literals the
concrete theorems below exercise: the empty dict, one well-formed dict,
and everything else treated as the malformed-literal case
(`SyntaxError`), exactly as `eval` behaves on those literals. -/
def evalPy : EvalFn := fun s =>
  if s = argsEmpty then .ok []
  else if s = argsReadMissing then .ok [("name", .pstr "missing")]
  else .error (.syntaxError "invalid syntax")

/-- A tool call for `get_calendar_events` with empty arguments. -/
def callCalendar : ToolCall := ⟨⟨"get_calendar_events", argsEmpty⟩⟩

/-- A tool call for `read_csv` naming a collection that does not
exist. -/
def callReadMissing : ToolCall := ⟨⟨"read_csv", argsReadMissing⟩⟩

/-- A tool call whose raw argument text is malformed. -/
def callMalformed : ToolCall := ⟨⟨"read_csv", argsMalformed⟩⟩

/-- A one-choice response carrying the given `tool_calls` field. -/
def mkResponse (content : String) (tc : Option (Option (List ToolCall))) : Response :=
  ⟨[⟨⟨content, tc⟩⟩]⟩

/-- JSON values as the `requests` `json()` decoder yields them
(numbers as exact rationals). -/
inductive Json where
  | jnull
  | jbool (b : Bool)
  | jnum (q : ℚ)
  | jstr (s : String)
  | jarr (items : List Json)
  | jobj (fields : List (String × Json))

/-- Lookup in a JSON object's field list (keys of decoded JSON objects
are unique). -/
def lookupJson : List (String × Json) → String → Option Json
  | [], _ => none
  | (k, v) :: rest, key => if k = key then some v else lookupJson rest key

/-- Replace a field's value in place, as Python dict assignment does. -/
def setJson : List (String × Json) → String → Json → List (String × Json)
  | [], key, v => [(key, v)]
  | (k, w) :: rest, key, v =>
      if k = key then (k, v) :: rest else (k, w) :: setJson rest key v

/-- Python subscription `value[key]`: `KeyError` for a missing key,
`TypeError` when the value is not a mapping. -/
def Json.getField : Json → String → Except PyError Json
  | .jobj fields, key =>
      match lookupJson fields key with
      | some v => .ok v
      | none => .error (.keyError key)
  | _, _ => .error (.typeError "object is not subscriptable")

/-- Python `value.get(key, default)`: `AttributeError` when the value
is not a mapping. -/
def Json.getDefault : Json → String → Json → Except PyError Json
  | .jobj fields, key, dflt => .ok ((lookupJson fields key).getD dflt)
  | _, _, _ => .error (.attributeError "get")

/-- One HTTP request as the embedded connector issues it. -/
structure HttpReq where
  method : String
  url : String
  headers : List (String × String)
  body : Option Json

/-- One HTTP response: status code and decoded JSON body (decoding
failures of `response.json()` are folded into the oracle). -/
structure HttpResp where
  status : Nat
  body : Json

/-- The HTTP transport oracle standing for the `requests` library. -/
abbrev Http := HttpReq → HttpResp

/-- Embedding of `requests.Response.raise_for_status`: raises
`HTTPError` for a 4xx or 5xx status. -/
def raise_for_status (r : HttpResp) : Except PyError Unit :=
  if 400 ≤ r.status ∧ r.status < 600 then .error (.httpError r.status) else .ok ()

/-- Embedding of `BASE_URL` (ynab.py line 20). -/
def BASE_URL : String := "https://api.youneedabudget.com/v1"

/-- Embedding of `get_headers` (ynab.py lines 22-27): the environment's
`YNAB_TOKEN` (`none` models the variable being unset; Python's `if not
token` also raises for a set-but-empty value) yields the bearer header
or raises `ValueError`. -/
def get_headers (env : Option String) : Except PyError (List (String × String)) :=
  match env with
  | none => .error (.valueError "YNAB_TOKEN not found in environment variables")
  | some token =>
      if token = "" then
        .error (.valueError "YNAB_TOKEN not found in environment variables")
      else .ok [("Authorization", "Bearer " ++ token)]

/-- Result extraction of `get_budgets` from the HTTP response (ynab.py
lines 41-42): `raise_for_status`, then `json()["data"]["budgets"]`. -/
def budgets_result (resp : HttpResp) : Except PyError Json :=
  match raise_for_status resp with
  | .error e => .error e
  | .ok _ =>
      match resp.body.getField "data" with
      | .error e => .error e
      | .ok d => d.getField "budgets"

/-- Embedding of `get_budgets` (ynab.py lines 38-42).  `get_headers()`
is evaluated as an argument of `requests.get`, so a missing token
raises before any request is issued (empty request log); otherwise
exactly one GET is issued and the result extracted from its
response. -/
def get_budgets (env : Option String) (http : Http) :
    (Except PyError Json) × List HttpReq :=
  match get_headers env with
  | .error e => (.error e, [])
  | .ok hdrs =>
      let req : HttpReq :=
        { method := "GET", url := BASE_URL ++ "/budgets",
          headers := hdrs, body := none }
      (budgets_result (http req), [req])

/-- Result extraction of `get_accounts` (ynab.py lines 61-62). -/
def accounts_result (resp : HttpResp) : Except PyError Json :=
  match raise_for_status resp with
  | .error e => .error e
  | .ok _ =>
      match resp.body.getField "data" with
      | .error e => .error e
      | .ok d => d.getField "accounts"

/-- Embedding of `get_accounts` (ynab.py lines 58-62). -/
def get_accounts (env : Option String) (http : Http) (budget_id : String) :
    (Except PyError Json) × List HttpReq :=
  match get_headers env with
  | .error e => (.error e, [])
  | .ok hdrs =>
      let req : HttpReq :=
        { method := "GET",
          url := BASE_URL ++ "/budgets/" ++ budget_id ++ "/accounts",
          headers := hdrs, body := none }
      (accounts_result (http req), [req])

/-- Truncation of a Python number by `int()`: toward zero. -/
def int_trunc (q : ℚ) : ℤ := if 0 ≤ q then ⌊q⌋ else ⌈q⌉

/-- Milliunit encoding performed by `create_transaction` (ynab.py line
190): `int(amount * 1000)`, here over exact rationals.  This is the
idealised value used in the payload embedding below; the source
computes it in IEEE-754 binary64 doubles, which
`amount_milliunits_ieee` models faithfully for the numerical claim. -/
def amount_milliunits (amount : ℚ) : ℤ := int_trunc (amount * 1000)

/-- Milliunit decoding performed by `get_transactions` (ynab.py line
100): `transaction["amount"] / 1000`, here the exact quotient.  The
source computes the IEEE-754 double nearest this quotient
(`milli_to_amount_ieee`); the two differ by under half an ulp. -/
def milli_to_amount (q : ℚ) : ℚ := q / 1000

/-- Nearest integer to a rational, ties going to the even integer: the
rounding IEEE-754 arithmetic applies to an exact result's scaled
significand. -/
def roundNearestEven (x : ℚ) : ℤ :=
  if Int.fract x < 1/2 then ⌊x⌋
  else if 1/2 < Int.fract x then ⌊x⌋ + 1
  else if 2 ∣ ⌊x⌋ then ⌊x⌋ else ⌊x⌋ + 1

/-- Binary64 rounding relation: `roundsTo x y` holds when `y` is the
IEEE-754 double nearest the positive exact value `x` (round to
nearest, ties to even).  The scale `k` places `x` in the 53-bit
significand range `[2^52, 2^53)`; such a `k` is unique
(`roundsTo_unique`), so the relation is single-valued.  With `k : ℕ`
this covers every positive value below `2^53` — ample for every
currency magnitude the connector handles; overflow and subnormals are
out of range here. -/
def roundsTo (x y : ℚ) : Prop :=
  ∃ k : ℕ, (2 : ℚ)^52 ≤ x * 2^k ∧ x * 2^k < 2^53 ∧
    y = (roundNearestEven (x * 2^k) : ℚ) / 2^k

/-- The integer `int(amount * 1000)` (ynab.py line 190) as the source
really computes it, in IEEE-754 binary64 arithmetic: `d` is the double
nearest the decimal amount `q` (what the float literal or JSON number
denotes), the product `d * 1000` is rounded once more (1000 is exactly
representable and IEEE multiplication is correctly rounded), and
`int()` truncates toward zero. -/
def amount_milliunits_ieee (q : ℚ) (n : ℤ) : Prop :=
  ∃ d p : ℚ, roundsTo q d ∧ roundsTo (d * 1000) p ∧ n = int_trunc p

/-- The double `transaction["amount"] / 1000` (ynab.py line 100) as the
source really computes it for the integer milliunit amount `n`: IEEE
division is correctly rounded, so the result is the double nearest the
exact quotient. -/
def milli_to_amount_ieee (n : ℤ) (y : ℚ) : Prop :=
  roundsTo ((n : ℚ) / 1000) y

/-- Conversion of one transaction element by the loop of
`get_transactions` (ynab.py lines 98-100): when the element is a
mapping with an `amount` key, that numeric amount is divided by 1000 in
place; a non-numeric amount makes the division raise.  A list or string
element passes the `in` test without an `amount` member in the data
this API returns and is left unchanged; other element types make the
`in` test raise `TypeError`. -/
def convert_tx : Json → Except PyError Json
  | .jobj fields =>
      (match lookupJson fields "amount" with
       | none => .ok (.jobj fields)
       | some (.jnum q) =>
           .ok (.jobj (setJson fields "amount" (.jnum (milli_to_amount q))))
       | some _ => .error (.typeError "unsupported operand type for division"))
  | .jarr l => .ok (.jarr l)
  | .jstr s => .ok (.jstr s)
  | _ => .error (.typeError "argument is not iterable")

/-- Map a fallible conversion over a list, stopping at the first raised
exception, as a Python `for` loop does. -/
def mapExcept (f : Json → Except PyError Json) : List Json → Except PyError (List Json)
  | [] => .ok []
  | a :: rest =>
      match f a with
      | .error e => .error e
      | .ok b =>
          match mapExcept f rest with
          | .error e => .error e
          | .ok bs => .ok (b :: bs)

/-- Result extraction of `get_transactions` (ynab.py lines 93-102):
`raise_for_status`, `json()["data"]["transactions"]`, then the
milliunit-conversion loop over the transactions (iterating a non-list
raises). -/
def transactions_result (resp : HttpResp) : Except PyError Json :=
  match raise_for_status resp with
  | .error e => .error e
  | .ok _ =>
      match resp.body.getField "data" with
      | .error e => .error e
      | .ok d =>
          match d.getField "transactions" with
          | .error e => .error e
          | .ok (.jarr txs) =>
              (match mapExcept convert_tx txs with
               | .error e => .error e
               | .ok txs2 => .ok (.jarr txs2))
          | .ok _ => .error (.typeError "object is not iterable")

/-- Embedding of `get_transactions` (ynab.py lines 86-102).  The URL
gains a `since_date` query parameter only for a truthy (non-`None`,
non-empty) `since_date`. -/
def get_transactions (env : Option String) (http : Http)
    (budget_id account_id : String) (since_date : Option String) :
    (Except PyError Json) × List HttpReq :=
  let url := BASE_URL ++ "/budgets/" ++ budget_id ++ "/accounts/" ++
    account_id ++ "/transactions" ++
    (match since_date with
     | some d => if d = "" then "" else "?since_date=" ++ d
     | none => "")
  match get_headers env with
  | .error e => (.error e, [])
  | .ok hdrs =>
      let req : HttpReq :=
        { method := "GET", url := url, headers := hdrs, body := none }
      (transactions_result (http req), [req])

/-- Division of one optional milliunit field of a category by 1000
(ynab.py lines 127-133): only performed when the key is present; a
non-numeric value makes the division raise. -/
def divideField (fields : List (String × Json)) (key : String) :
    Except PyError (List (String × Json)) :=
  match lookupJson fields key with
  | none => .ok fields
  | some (.jnum q) => .ok (setJson fields key (.jnum (q / 1000)))
  | some _ => .error (.typeError "unsupported operand type for division")

/-- Conversion of one category element by `get_budget_summary`:
`balance`, `budgeted` and `activity` are divided by 1000 when
present. -/
def convert_category : Json → Except PyError Json
  | .jobj fields =>
      (match divideField fields "balance" with
       | .error e => .error e
       | .ok f1 =>
           match divideField f1 "budgeted" with
           | .error e => .error e
           | .ok f2 =>
               match divideField f2 "activity" with
               | .error e => .error e
               | .ok f3 => .ok (.jobj f3))
  | .jarr l => .ok (.jarr l)
  | .jstr s => .ok (.jstr s)
  | _ => .error (.typeError "argument is not iterable")

/-- Result extraction of `get_budget_summary` (ynab.py lines 121-139):
`raise_for_status`, `json()["data"]["budget"]`, the category
conversion loop, then the summary object `\x7bname, currency_format,
categories\x7d` built with `.get` defaults. -/
def budget_summary_result (resp : HttpResp) : Except PyError Json :=
  match raise_for_status resp with
  | .error e => .error e
  | .ok _ =>
      match resp.body.getField "data" with
      | .error e => .error e
      | .ok d =>
          match d.getField "budget" with
          | .error e => .error e
          | .ok budget_data =>
              match budget_data.getDefault "categories" (.jarr []) with
              | .error e => .error e
              | .ok (.jarr cats) =>
                  (match mapExcept convert_category cats with
                   | .error e => .error e
                   | .ok cats2 =>
                       match budget_data.getDefault "name" (.jstr "") with
                       | .error e => .error e
                       | .ok n =>
                           match budget_data.getDefault "currency_format" (.jobj []) with
                           | .error e => .error e
                           | .ok cf =>
                               .ok (.jobj [("name", n), ("currency_format", cf),
                                 ("categories", .jarr cats2)]))
              | .ok _ => .error (.typeError "object is not iterable")

/-- Embedding of `get_budget_summary` (ynab.py lines 118-139). -/
def get_budget_summary (env : Option String) (http : Http) (budget_id : String) :
    (Except PyError Json) × List HttpReq :=
  match get_headers env with
  | .error e => (.error e, [])
  | .ok hdrs =>
      let req : HttpReq :=
        { method := "GET", url := BASE_URL ++ "/budgets/" ++ budget_id,
          headers := hdrs, body := none }
      (budget_summary_result (http req), [req])

/-- The `transaction_data` payload built by `create_transaction`
(ynab.py lines 192-207): the amount is `int(amount * 1000)` milliunits;
`category_id` and `memo` are attached only when truthy. -/
def transaction_data (account_id date : String) (amount : ℚ)
    (payee_name : String) (category_id memo : Option String) : Json :=
  let base : List (String × Json) :=
    [("account_id", .jstr account_id), ("date", .jstr date),
     ("amount", .jnum ((amount_milliunits amount : ℤ) : ℚ)),
     ("payee_name", .jstr payee_name), ("cleared", .jstr "cleared"),
     ("approved", .jbool true)]
  let withCat :=
    match category_id with
    | some c => if c = "" then base else base ++ [("category_id", .jstr c)]
    | none => base
  let withMemo :=
    match memo with
    | some m => if m = "" then withCat else withCat ++ [("memo", .jstr m)]
    | none => withCat
  .jobj [("transaction", .jobj withMemo)]

/-- Result extraction of `create_transaction` (ynab.py lines 214-216). -/
def create_result (resp : HttpResp) : Except PyError Json :=
  match raise_for_status resp with
  | .error e => .error e
  | .ok _ =>
      match resp.body.getField "data" with
      | .error e => .error e
      | .ok d => d.getField "transaction"

/-- Embedding of `create_transaction` (ynab.py lines 179-216): one POST
carrying the `transaction_data` payload, issued only after
`get_headers()` succeeded. -/
def create_transaction (env : Option String) (http : Http)
    (budget_id account_id date : String) (amount : ℚ) (payee_name : String)
    (category_id memo : Option String) : (Except PyError Json) × List HttpReq :=
  match get_headers env with
  | .error e => (.error e, [])
  | .ok hdrs =>
      let req : HttpReq :=
        { method := "POST",
          url := BASE_URL ++ "/budgets/" ++ budget_id ++ "/transactions",
          headers := hdrs,
          body := some (transaction_data account_id date amount payee_name
            category_id memo) }
      (create_result (http req), [req])

/-- The budget id literal of the module-level example calls (ynab.py
lines 222-224). -/
def exampleBudgetId : String := "8b6871aa-bd9f-465d-99ed-697872bd813f"

/-- Embedding of the module top level of connectors/ynab.py (lines
220-225), executed unconditionally when the module is imported:
`get_budgets()`, then `get_transactions("8b6871aa-…", "2025-05-02")`
(the date string lands in the positional `account_id` parameter;
`since_date` stays `None`), then `get_budget_summary("8b6871aa-…")`.
The first uncaught exception aborts the import; the second component
accumulates every HTTP request issued before that point. -/
def ynab_module_init (env : Option String) (http : Http) :
    (Except PyError Unit) × List HttpReq :=
  match get_budgets env http with
  | (.error e, l1) => (.error e, l1)
  | (.ok _, l1) =>
      match get_transactions env http exampleBudgetId "2025-05-02" none with
      | (.error e, l2) => (.error e, l1 ++ l2)
      | (.ok _, l2) =>
          match get_budget_summary env http exampleBudgetId with
          | (.error e, l3) => (.error e, l1 ++ l2 ++ l3)
          | (.ok _, l3) => (.ok (), l1 ++ l2 ++ l3)

/-- Observable outcome of one run of `python tinyagent.py`. -/
structure ScriptState where
  printed : List String
  fs : FS
  ranAgent : Bool
deriving Repr

/-- Embedding of a run of tinyagent.py as a script.  Module level
first: `load_dotenv()` (folded into the `openai_key` parameter) and
`client = OpenAI()` (line 8) — the OpenAI v1 client constructor raises
`OpenAIError("The api_key client option must be set …")` when the
`OPENAI_API_KEY` environment variable is absent, so an unset key aborts
the run before the `__main__` block.  Then the `__main__` block (lines
129-147): the warning branch fires only for a falsy-but-present key
(the empty string, since an absent key never reaches it); the sample
row is appended to `mem/notes.csv`; the fixed query is sent to the
model oracle `llm` and its response dispatched through
`process_tool_calls`.  A `.error` first component models the
interpreter exiting with a nonzero status and the exception's
diagnostic; `ranAgent` records whether the query was processed. -/
def tinyagent_script (openai_key : Option String) (now : String)
    (llm : String → Response) (evalFn : EvalFn) (fs0 : FS) :
    (Except PyError Unit) × ScriptState :=
  match openai_key with
  | none =>
      (.error (.openaiError
        "The api_key client option must be set either by passing api_key to the client or by setting the OPENAI_API_KEY environment variable"),
       { printed := [], fs := fs0, ranAgent := false })
  | some key =>
      let warn :=
        if key = "" then
          ["Warning: OPENAI_API_KEY not found in environment variables.",
           "Please add it to your .env file or set it manually."]
        else []
      match write_csv (.pstr "notes")
          (.pdict [(some "date", .pstr now), (some "note", .pstr "Initial test note")]) fs0 with
      | (.error e, fs1) => (.error e, { printed := warn, fs := fs1, ranAgent := false })
      | (.ok _, fs1) =>
          let printed1 := warn ++ ["User: What notes do I have saved?"]
          match process_tool_calls evalFn (llm "What notes do I have saved?") fs1 with
          | (.error e, fs2) =>
              (.error e, { printed := printed1, fs := fs2, ranAgent := true })
          | (.ok result, fs2) =>
              (.ok (), { printed := printed1 ++ ["Agent result: " ++ result],
                         fs := fs2, ranAgent := true })

/-- Joining a single line needs no separator. -/
theorem intercalate_singleton (s x : String) : String.intercalate s [x] = x := rfl

/-- Stringifying a Python string is the identity. -/
theorem pyStr_pstr (s : String) : pyStr (.pstr s) = s := rfl

/-- The dispatcher loop is not exception-safe: when every call of `pre`
succeeded and the next call raises, the whole loop raises that
exception, whatever calls follow; the store keeps the mutations made so
far. -/
theorem runCalls_abort (evalFn : EvalFn) (pre post : List ToolCall) (c : ToolCall)
    (fs fs1 fs2 : FS) (lines : List String) (e : PyError)
    (h1 : runCalls evalFn pre fs = (.ok lines, fs1))
    (h2 : execCall evalFn c fs1 = (.error e, fs2)) :
    runCalls evalFn (pre ++ c :: post) fs = (.error e, fs2) := by
  induction pre generalizing fs lines with
  | nil =>
      simp only [runCalls] at h1
      injection h1 with ha hb
      injection ha with ha
      subst hb
      simp only [List.nil_append, runCalls, h2]
  | cons a pre ih =>
      simp only [List.cons_append, runCalls] at h1 ⊢
      rcases hx : execCall evalFn a fs with ⟨r, fsa⟩
      rw [hx] at h1
      cases r with
      | error e2 => simp at h1
      | ok line =>
          simp only at h1 ⊢
          rcases hy : runCalls evalFn pre fsa with ⟨r2, fsb⟩
          rw [hy] at h1
          cases r2 with
          | error e2 => simp at h1
          | ok lines2 =>
              simp only at h1
              injection h1 with ha hb
              subst hb
              simp only [List.append_eq]
              rw [ih fsa lines2 hy]

/-- C1 (amended): an exception raised while invoking a resolved tool
function is not caught by `process_tool_calls`: it propagates to the
caller and aborts the batch; the calls after it are not executed, no
per-call error line (of any form) is produced, and the results of the
calls before it are discarded. -/
theorem c1_exception_aborts_batch (evalFn : EvalFn) (pre post : List ToolCall)
    (c : ToolCall) (fs fs1 fs2 : FS) (lines : List String) (args : Kwargs)
    (e : PyError) (content : String)
    (h1 : runCalls evalFn pre fs = (.ok lines, fs1))
    (h2 : evalFn c.function.arguments = .ok args)
    (h3 : invokeTool c.function.name args fs1 = (.error e, fs2)) :
    process_tool_calls evalFn (mkResponse content (some (some (pre ++ c :: post)))) fs
      = (.error e, fs2) := by
  have hexec : execCall evalFn c fs1 = (.error e, fs2) := by
    simp [execCall, h2, h3]
  have habort := runCalls_abort evalFn pre post c fs fs1 fs2 lines e h1 hexec
  simp [process_tool_calls, mkResponse, habort]

/-- Witness for `c1_exception_aborts_batch`: a three-call batch whose
middle call invokes `read_csv` on a missing file; the
`FileNotFoundError` escapes and the third call is never reported. -/
theorem c1_exception_aborts_batch_witness :
    runCalls evalPy [callCalendar] [] =
      (.ok ["get_calendar_events result: " ++ pyStr get_calendar_events], []) ∧
    evalPy callReadMissing.function.arguments = .ok [("name", .pstr "missing")] ∧
    invokeTool callReadMissing.function.name [("name", .pstr "missing")] [] =
      (.error (.fileNotFound "mem/missing.csv"), []) ∧
    process_tool_calls evalPy
        (mkResponse "" (some (some ([callCalendar] ++ callReadMissing :: [callCalendar])))) []
      = (.error (.fileNotFound "mem/missing.csv"), []) :=
  ⟨rfl, rfl, rfl,
    c1_exception_aborts_batch evalPy [callCalendar] [callCalendar] callReadMissing
      [] [] [] ["get_calendar_events result: " ++ pyStr get_calendar_events]
      [("name", .pstr "missing")] (.fileNotFound "mem/missing.csv") "" rfl rfl rfl⟩

/-- Counterexample to C1 as stated: a two-call batch whose first call
raises `FileNotFoundError` inside `read_csv`.  The dispatcher does not
return a string containing a per-call error line for that call and a
result line for the sibling call — it raises, reporting nothing. -/
theorem c1_counterexample :
    process_tool_calls evalPy
        (mkResponse "" (some (some [callReadMissing, callCalendar]))) []
      = (.error (.fileNotFound "mem/missing.csv"), []) := rfl

/-- C2 (amended): a failure to decode one call's raw argument string is
not caught: `eval` raises out of `process_tool_calls`, so the batch
aborts at the malformed call; earlier calls were executed for effect
but their lines are discarded, later calls never run, and no error line
is reported. -/
theorem c2_decode_failure_aborts_batch (evalFn : EvalFn) (pre post : List ToolCall)
    (c : ToolCall) (fs fs1 : FS) (lines : List String) (e : PyError)
    (content : String)
    (h1 : runCalls evalFn pre fs = (.ok lines, fs1))
    (h2 : evalFn c.function.arguments = .error e) :
    process_tool_calls evalFn (mkResponse content (some (some (pre ++ c :: post)))) fs
      = (.error e, fs1) := by
  have hexec : execCall evalFn c fs1 = (.error e, fs1) := by
    simp [execCall, h2]
  have habort := runCalls_abort evalFn pre post c fs fs1 fs1 lines e h1 hexec
  simp [process_tool_calls, mkResponse, habort]

/-- Witness for `c2_decode_failure_aborts_batch`: a well-formed call
followed by a malformed one. -/
theorem c2_decode_failure_aborts_batch_witness :
    runCalls evalPy [callCalendar] [] =
      (.ok ["get_calendar_events result: " ++ pyStr get_calendar_events], []) ∧
    evalPy callMalformed.function.arguments = .error (.syntaxError "invalid syntax") ∧
    process_tool_calls evalPy
        (mkResponse "" (some (some ([callCalendar] ++ callMalformed :: [])))) []
      = (.error (.syntaxError "invalid syntax"), []) :=
  ⟨rfl, rfl,
    c2_decode_failure_aborts_batch evalPy [callCalendar] [] callMalformed [] []
      ["get_calendar_events result: " ++ pyStr get_calendar_events]
      (.syntaxError "invalid syntax") "" rfl rfl⟩

/-- Counterexample to C2 as stated: for the batch
`[get_calendar_events, malformed]` the spec promises one success line
and one error line; the code instead raises `SyntaxError` and returns
no output at all. -/
theorem c2_counterexample :
    process_tool_calls evalPy
        (mkResponse "" (some (some [callCalendar, callMalformed]))) []
      = (.error (.syntaxError "invalid syntax"), []) := rfl

/-- C3 (amended): only a message without a `tool_calls` attribute makes
the dispatcher return the model's text unchanged (and untouched store,
hence no tool invocation and no summarization).  The two other zero-
tool-call shapes behave differently: a `tool_calls` list that is empty
yields the empty string (the join of zero lines), and a `tool_calls`
attribute holding Python `None` raises `TypeError`. -/
theorem c3_zero_tool_calls (evalFn : EvalFn) (content : String) (fs : FS) :
    process_tool_calls evalFn (mkResponse content none) fs = (.ok content, fs) ∧
    process_tool_calls evalFn (mkResponse content (some (some []))) fs = (.ok "", fs) ∧
    process_tool_calls evalFn (mkResponse content (some none)) fs =
      (.error (.typeError "\x27NoneType\x27 object is not iterable"), fs) :=
  ⟨rfl, rfl, rfl⟩

/-- Counterexample to C3 as stated: a response whose message carries
zero tool-call requests as an empty `tool_calls` list.  The dispatcher
returns `""`, not the message content `"hello"`. -/
theorem c3_counterexample :
    process_tool_calls evalPy (mkResponse "hello" (some (some []))) [] = (.ok "", []) ∧
    (("" : String) == "hello") = false :=
  ⟨rfl, by decide⟩

/-- C5 (amended): there is no summarization pass.  `process_tool_calls`
never receives the user prompt, and the output line of every
successfully invoked tool call is the tool name, the literal
`" result: "`, and the stringified raw result — the raw result
formatted directly. -/
theorem c5_no_summarizer (evalFn : EvalFn) (c : ToolCall) (args : Kwargs)
    (r : PyObj) (fs fs2 : FS) (content : String)
    (h1 : evalFn c.function.arguments = .ok args)
    (h2 : invokeTool c.function.name args fs = (.ok r, fs2)) :
    process_tool_calls evalFn (mkResponse content (some (some [c]))) fs =
      (.ok (c.function.name ++ " result: " ++ pyStr r), fs2) := by
  simp [process_tool_calls, mkResponse, runCalls, execCall, h1, h2,
    intercalate_singleton]

/-- Witness for `c5_no_summarizer`: the calendar tool call. -/
theorem c5_no_summarizer_witness :
    evalPy callCalendar.function.arguments = .ok [] ∧
    invokeTool callCalendar.function.name [] [] = (.ok get_calendar_events, []) ∧
    process_tool_calls evalPy (mkResponse "" (some (some [callCalendar]))) [] =
      (.ok ("get_calendar_events result: " ++ pyStr get_calendar_events), []) :=
  ⟨rfl, rfl,
    c5_no_summarizer evalPy callCalendar [] get_calendar_events [] [] "" rfl rfl⟩

/-- Counterexample to C5 as stated: for a successful
`get_calendar_events` call the dispatcher's output line is the direct
formatting of the raw result; in particular it is not the raw
(stringified) result unmodified, which the spec's fallback clause
promises whenever the (nonexistent) summarization round-trip fails. -/
theorem c5_counterexample :
    process_tool_calls evalPy (mkResponse "" (some (some [callCalendar]))) [] =
      (.ok ("get_calendar_events result: " ++ pyStr get_calendar_events), []) ∧
    (("get_calendar_events result: " ++ pyStr get_calendar_events) ==
      pyStr get_calendar_events) = false :=
  ⟨rfl, by decide⟩

/-- C4 (amended): the advertised registry is the static `TOOLS_SPEC`
list alone.  Its three names are unique and each resolves (through the
dispatcher's `if`/`elif` chain, a function) to exactly one callable;
but none of the five functions marked by the `@tool` decorator in
connectors/ynab.py appears in it, and the dispatcher cannot resolve
their names. -/
theorem c4_ynab_tools_unregistered :
    (TOOLS_SPEC.map ToolSpec.name).Nodup ∧
    ((TOOLS_SPEC.map ToolSpec.name).all fun n => (resolveTool n).isSome) = true ∧
    ((ynab_marked_tools.map ToolSpec.name).all fun n =>
      !((TOOLS_SPEC.map ToolSpec.name).contains n) && (resolveTool n).isNone) = true := by
  refine ⟨?_, by decide, by decide⟩
  decide

/-- Counterexample to C4 as stated: `get_budgets` is marked as a tool
(first entry of the decorated functions of connectors/ynab.py) yet its
name is not advertised in `TOOLS_SPEC`, the dispatcher resolves it to
no callable, and dispatching it produces the `Unknown function`
result. -/
theorem c4_counterexample :
    ynab_marked_tools.map ToolSpec.name =
      ["get_budgets", "get_accounts", "get_transactions", "get_budget_summary",
       "create_transaction"] ∧
    TOOLS_SPEC.map ToolSpec.name = ["read_csv", "write_csv", "get_calendar_events"] ∧
    ((TOOLS_SPEC.map ToolSpec.name).contains "get_budgets") = false ∧
    resolveTool "get_budgets" = none ∧
    invokeTool "get_budgets" [] [] = (.ok (.pstr "Unknown function: get_budgets"), []) :=
  ⟨rfl, rfl, by decide, by decide, rfl⟩

/-- Rounding to nearest hits any integer within half a unit (no tie
possible strictly inside the half-unit band). -/
theorem roundNearestEven_eq_of_abs_lt (x : ℚ) (n : ℤ) (h : |x - (n : ℚ)| < 1/2) :
    roundNearestEven x = n := by
  rw [abs_lt] at h
  obtain ⟨hlo, hhi⟩ := h
  have hfr : Int.fract x = x - (⌊x⌋ : ℚ) := (Int.self_sub_floor x).symm
  by_cases hc : (n : ℚ) ≤ x
  · have hfl : ⌊x⌋ = n := by
      rw [Int.floor_eq_iff]
      refine ⟨hc, by linarith⟩
    have hlt : Int.fract x < 1/2 := by
      rw [hfr, hfl]
      linarith
    rw [roundNearestEven, if_pos hlt, hfl]
  · push_neg at hc
    have hfl : ⌊x⌋ = n - 1 := by
      rw [Int.floor_eq_iff]
      constructor
      · push_cast; linarith
      · push_cast; linarith
    have hgt : 1/2 < Int.fract x := by
      rw [hfr, hfl]
      push_cast
      linarith
    rw [roundNearestEven, if_neg (by linarith), if_pos hgt, hfl]
    omega

/-- Rounding to nearest moves a value by at most half a unit. -/
theorem abs_sub_roundNearestEven (x : ℚ) : |x - (roundNearestEven x : ℚ)| ≤ 1/2 := by
  have hfr : Int.fract x = x - (⌊x⌋ : ℚ) := (Int.self_sub_floor x).symm
  have h0 : 0 ≤ Int.fract x := Int.fract_nonneg x
  have h1 : Int.fract x < 1 := Int.fract_lt_one x
  rw [roundNearestEven]
  split_ifs with ha hb hcdvd
  · rw [abs_le]
    constructor <;> [linarith [hfr ▸ h0]; linarith [hfr ▸ ha]]
  · rw [abs_le]
    push_cast
    constructor <;> [linarith [hfr ▸ hb]; linarith [hfr ▸ h1]]
  · rw [abs_le]
    have he : Int.fract x = 1/2 := by linarith
    constructor <;> linarith [hfr ▸ he]
  · rw [abs_le]
    have he : Int.fract x = 1/2 := by linarith
    push_cast
    constructor <;> linarith [hfr ▸ he]

/-- The binade scale of `roundsTo` is forced, so binary64 rounding is a
function: a value rounds to exactly one double. -/
theorem roundsTo_unique (x y1 y2 : ℚ) (h1 : roundsTo x y1) (h2 : roundsTo x y2) :
    y1 = y2 := by
  obtain ⟨a, ha1, ha2, hay⟩ := h1
  obtain ⟨b, hb1, hb2, hby⟩ := h2
  have hx : 0 < x := by
    rcases lt_trichotomy x 0 with hneg | hzero | hpos
    · have : x * 2^a < 0 := mul_neg_of_neg_of_pos hneg (by positivity)
      nlinarith [pow_pos (show (0:ℚ) < 2 by norm_num) 52]
    · rw [hzero] at ha1
      simp at ha1
      nlinarith [pow_pos (show (0:ℚ) < 2 by norm_num) 52]
    · exact hpos
  have key : ∀ s t : ℕ, (2:ℚ)^52 ≤ x * 2^s → x * 2^s < 2^53 →
      (2:ℚ)^52 ≤ x * 2^t → x * 2^t < 2^53 → s ≤ t → s = t := by
    intro s t hs1 hs2 ht1 ht2 hst
    by_contra hne
    have hlt : s + 1 ≤ t := by omega
    have hmono : (2:ℚ)^(s+1) ≤ 2^t := pow_le_pow_right₀ (by norm_num) hlt
    have : (2:ℚ)^53 ≤ x * 2^t := by
      calc (2:ℚ)^53 = 2^52 * 2 := by ring
      _ ≤ (x * 2^s) * 2 := by linarith
      _ = x * 2^(s+1) := by ring
      _ ≤ x * 2^t := by nlinarith
    linarith
  have hab : a = b := by
    rcases le_total a b with h | h
    · exact key a b ha1 ha2 hb1 hb2 h
    · exact (key b a hb1 hb2 ha1 ha2 h).symm
  rw [hay, hby, hab]

/-- Decoding is harmless at three-decimal granularity: the double that
`n / 1000` computes differs from the exact quotient by at most half an
ulp, so rounding it back to whole milliunits recovers `n` for every
positive milliunit amount up to `2^41 * 1000`. -/
theorem milli_to_amount_ieee_three_places (n : ℤ) (y : ℚ)
    (hn1 : 1 ≤ n) (hn2 : n ≤ 2^41 * 1000)
    (hy : milli_to_amount_ieee n y) : roundNearestEven (y * 1000) = n := by
  obtain ⟨k, hlo, hhi, hyeq⟩ := hy
  have hkpos : (0:ℚ) < 2^k := by positivity
  have herr0 : |(n:ℚ)/1000 * 2^k - (roundNearestEven ((n:ℚ)/1000 * 2^k) : ℚ)| ≤ 1/2 :=
    abs_sub_roundNearestEven _
  have hxle : ((n:ℚ)/1000) ≤ 2^41 := by
    rw [div_le_iff₀ (by norm_num : (0:ℚ) < 1000)]
    calc (n:ℚ) ≤ ((2^41 * 1000 : ℤ) : ℚ) := by exact_mod_cast hn2
    _ = 2^41 * 1000 := by push_cast; ring
  have hk : 11 ≤ k := by
    by_contra hke
    push_neg at hke
    have h2k : (2:ℚ)^k ≤ 2^10 := pow_le_pow_right₀ (by norm_num) (by omega)
    have hx0 : (0:ℚ) ≤ (n:ℚ)/1000 := by positivity
    have : (n:ℚ)/1000 * 2^k ≤ 2^41 * 2^10 := by nlinarith
    have hlt : (2:ℚ)^41 * 2^10 < 2^52 := by norm_num
    linarith
  have h2k : (2:ℚ)^11 ≤ 2^k := pow_le_pow_right₀ (by norm_num) hk
  apply roundNearestEven_eq_of_abs_lt
  have hyv : y * 1000 - (n:ℚ) =
      ((roundNearestEven ((n:ℚ)/1000 * 2^k) : ℚ) - (n:ℚ)/1000 * 2^k) * 1000 / 2^k := by
    rw [hyeq]
    field_simp
    ring
  rw [hyv, abs_div, abs_of_pos hkpos, abs_mul]
  rw [div_lt_iff₀ hkpos]
  have habs : |(roundNearestEven ((n:ℚ)/1000 * 2^k) : ℚ) - (n:ℚ)/1000 * 2^k| ≤ 1/2 := by
    rw [abs_sub_comm]
    exact herr0
  have h1000 : |(1000:ℚ)| = 1000 := by norm_num
  calc |(roundNearestEven ((n:ℚ)/1000 * 2^k) : ℚ) - (n:ℚ)/1000 * 2^k| * |(1000:ℚ)|
      ≤ (1/2) * 1000 := by rw [h1000]; nlinarith
  _ = 500 := by norm_num
  _ < 1/2 * 2^k := by nlinarith

/-- Parsing the decimal literal 1.015 yields the double
4571153621781053 / 2^52, which is 0.44 scaled units below the exact
value. -/
theorem roundsTo_1015 : roundsTo (1015/1000 : ℚ) (4571153621781053 / 2^52) := by
  refine ⟨52, by norm_num, by norm_num, ?_⟩
  rw [roundNearestEven_eq_of_abs_lt ((1015/1000 : ℚ) * 2^52) 4571153621781053
    (by rw [abs_lt]; constructor <;> norm_num)]
  norm_num

/-- Multiplying that double by 1000 yields the double
8928034417541119 / 2^43 = 1014.9999999999999…, strictly below 1015. -/
theorem roundsTo_prod_1015 :
    roundsTo ((4571153621781053 / 2^52 : ℚ) * 1000) (8928034417541119 / 2^43) := by
  refine ⟨43, by norm_num, by norm_num, ?_⟩
  rw [roundNearestEven_eq_of_abs_lt ((4571153621781053 / 2^52 : ℚ) * 1000 * 2^43)
    8928034417541119 (by rw [abs_lt]; constructor <;> norm_num)]
  norm_num

/-- `int()` truncates that product to 1014 — one milliunit short of
1015. -/
theorem int_trunc_p1015 : int_trunc (8928034417541119 / 2^43 : ℚ) = 1014 := by
  rw [int_trunc, if_pos (by norm_num)]
  rw [Int.floor_eq_iff]
  constructor <;> norm_num

/-- Decoding 1014 milliunits computes the double
4566650022153683 / 2^52 (the one nearest 1.014). -/
theorem roundsTo_decode_1014 :
    milli_to_amount_ieee 1014 (4566650022153683 / 2^52 : ℚ) := by
  refine ⟨52, by norm_num, by norm_num, ?_⟩
  rw [roundNearestEven_eq_of_abs_lt (((1014 : ℤ) : ℚ)/1000 * 2^52) 4566650022153683
    (by rw [abs_lt]; constructor <;> norm_num)]
  norm_num

/-- That decoded double is 1.014 to three decimal places. -/
theorem decoded_1014_rounds :
    roundNearestEven ((4566650022153683 / 2^52 : ℚ) * 1000) = 1014 :=
  roundNearestEven_eq_of_abs_lt _ _ (by rw [abs_lt]; constructor <;> norm_num)

/-- C6 (amended): milliunit conversion is inverse-consistent exactly
when the IEEE-754 double computation of `int(amount * 1000)`
(ynab.py line 190) does not fall below the exact milliunit integer.
For a positive amount `q` with at most three decimal places (and below
2^41 currency units), if the binary64 product `p` of the parsed double
and 1000 satisfies `q*1000 ≤ p < q*1000 + 1`, then the connector
encodes exactly `q * 1000` milliunits, every double the read-side
division (ynab.py line 100) can produce for that integer is `q` to
three decimal places, and the exact quotient is `q` itself. -/
theorem c6_float_roundtrip (q d p : ℚ)
    (h1 : (q * 1000).den = 1)
    (hn1 : 1 ≤ (q * 1000).num) (hn2 : (q * 1000).num ≤ 2^41 * 1000)
    (hd : roundsTo q d) (hp : roundsTo (d * 1000) p)
    (h2 : ((q * 1000).num : ℚ) ≤ p) (h3 : p < ((q * 1000).num : ℚ) + 1) :
    amount_milliunits_ieee q ((q * 1000).num) ∧
    (∀ y : ℚ, milli_to_amount_ieee ((q * 1000).num) y →
      roundNearestEven (y * 1000) = (q * 1000).num) ∧
    milli_to_amount (((q * 1000).num : ℤ) : ℚ) = q := by
  have hnn : (0:ℚ) ≤ ((q * 1000).num : ℚ) := by
    exact_mod_cast le_trans (by norm_num : (0:ℤ) ≤ 1) hn1
  have h0 : (0:ℚ) ≤ p := le_trans hnn h2
  refine ⟨⟨d, p, hd, hp, ?_⟩, ?_, ?_⟩
  · rw [int_trunc, if_pos h0]
    symm
    rw [Int.floor_eq_iff]
    exact ⟨h2, by linarith⟩
  · intro y hy
    exact milli_to_amount_ieee_three_places _ y hn1 hn2 hy
  · have hq : (((q * 1000).num : ℤ) : ℚ) = q * 1000 := by
      conv_rhs => rw [← Rat.num_div_den (q * 1000)]
      rw [h1]
      simp
    rw [milli_to_amount, hq]
    field_simp

/-- Counterexample to C6 as stated: for the decimal amount 1.015 the
program's IEEE-754 computation encodes 1014 milliunits, not 1015 —
the only value `int(1.015 * 1000)` can produce is 1014 (the rounding
relation is single-valued) — and the decoded double is 1.014 to three
decimal places, not 1.015. -/
theorem c6_float_counterexample :
    amount_milliunits_ieee (1015/1000 : ℚ) 1014 ∧
    (∀ n : ℤ, amount_milliunits_ieee (1015/1000 : ℚ) n → n = 1014) ∧
    milli_to_amount_ieee 1014 (4566650022153683 / 2^52 : ℚ) ∧
    roundNearestEven ((4566650022153683 / 2^52 : ℚ) * 1000) = 1014 ∧
    ((1015/1000 : ℚ) * 1000).num = 1015 ∧
    (1014 : ℤ) ≠ 1015 := by
  refine ⟨⟨_, _, roundsTo_1015, roundsTo_prod_1015, int_trunc_p1015.symm⟩, ?_,
    roundsTo_decode_1014, decoded_1014_rounds, ?_, by decide⟩
  · rintro n ⟨d, p, hdn, hpn, hn⟩
    have hde : d = 4571153621781053 / 2^52 := roundsTo_unique _ _ _ hdn roundsTo_1015
    subst hde
    have hpe : p = 8928034417541119 / 2^43 := roundsTo_unique _ _ _ hpn roundsTo_prod_1015
    subst hpe
    rw [hn, int_trunc_p1015]
  · have hq : (1015/1000 : ℚ) * 1000 = 1015 := by norm_num
    rw [hq]
    rfl

/-- Witness for `c6_float_roundtrip`: 12.34.  The parsed double is
6946802425218990 / 2^49 and its binary64 product with 1000 is exactly
12340, so the no-drop hypothesis holds and 12.34 → 12340 → 12.34. -/
theorem c6_float_roundtrip_witness :
    ((1234/100 : ℚ) * 1000).den = 1 ∧
    1 ≤ ((1234/100 : ℚ) * 1000).num ∧
    ((1234/100 : ℚ) * 1000).num ≤ 2^41 * 1000 ∧
    roundsTo (1234/100 : ℚ) (6946802425218990 / 2^49) ∧
    roundsTo ((6946802425218990 / 2^49 : ℚ) * 1000) 12340 ∧
    (((1234/100 : ℚ) * 1000).num : ℚ) ≤ 12340 ∧
    (12340:ℚ) < (((1234/100 : ℚ) * 1000).num : ℚ) + 1 ∧
    (amount_milliunits_ieee (1234/100 : ℚ) ((1234/100 : ℚ) * 1000).num ∧
     (∀ y : ℚ, milli_to_amount_ieee (((1234/100 : ℚ) * 1000).num) y →
        roundNearestEven (y * 1000) = ((1234/100 : ℚ) * 1000).num) ∧
     milli_to_amount ((((1234/100 : ℚ) * 1000).num : ℤ) : ℚ) = (1234/100 : ℚ)) := by
  have hq : (1234/100 : ℚ) * 1000 = 12340 := by norm_num
  have hden : ((1234/100 : ℚ) * 1000).den = 1 := by rw [hq]; rfl
  have hnum : ((1234/100 : ℚ) * 1000).num = 12340 := by rw [hq]; rfl
  have hd : roundsTo (1234/100 : ℚ) (6946802425218990 / 2^49) := by
    refine ⟨49, by norm_num, by norm_num, ?_⟩
    rw [roundNearestEven_eq_of_abs_lt ((1234/100 : ℚ) * 2^49) 6946802425218990
      (by rw [abs_lt]; constructor <;> norm_num)]
    norm_num
  have hp : roundsTo ((6946802425218990 / 2^49 : ℚ) * 1000) 12340 := by
    refine ⟨39, by norm_num, by norm_num, ?_⟩
    rw [roundNearestEven_eq_of_abs_lt ((6946802425218990 / 2^49 : ℚ) * 1000 * 2^39)
      6783986743377920 (by rw [abs_lt]; constructor <;> norm_num)]
    norm_num
  exact ⟨hden, by rw [hnum]; norm_num, by rw [hnum]; norm_num, hd, hp,
    by rw [hnum]; norm_num, by rw [hnum]; norm_num,
    c6_float_roundtrip (1234/100 : ℚ) _ _ hden (by rw [hnum]; norm_num)
      (by rw [hnum]; norm_num) hd hp (by rw [hnum]; norm_num) (by rw [hnum]; norm_num)⟩

/-- C8: with `YNAB_TOKEN` unset, every one of the five connector calls
raises the `ValueError` configuration message from `get_headers` and
issues no HTTP request at all (empty request log): `get_headers()` is
evaluated as an argument before `requests.get`/`requests.post` can
run. -/
theorem c8_missing_token_no_request (http : Http) (b a d p : String)
    (sd cat memo : Option String) (amt : ℚ) :
    get_budgets none http =
      (.error (.valueError "YNAB_TOKEN not found in environment variables"), []) ∧
    get_accounts none http b =
      (.error (.valueError "YNAB_TOKEN not found in environment variables"), []) ∧
    get_transactions none http b a sd =
      (.error (.valueError "YNAB_TOKEN not found in environment variables"), []) ∧
    get_budget_summary none http b =
      (.error (.valueError "YNAB_TOKEN not found in environment variables"), []) ∧
    create_transaction none http b a d amt p cat memo =
      (.error (.valueError "YNAB_TOKEN not found in environment variables"), []) :=
  ⟨rfl, rfl, rfl, rfl, rfl⟩

/-- C9: running `python tinyagent.py` with `OPENAI_API_KEY` absent
aborts with an uncaught `OpenAIError` — a nonzero exit status and a
diagnostic message — before the query is processed: the OpenAI client
constructor at module level (tinyagent.py line 8) raises when the key
is unset, so `run_agent` is never reached (`ranAgent = false`, nothing
printed, store untouched). -/
theorem c9_missing_key_exits (now : String) (llm : String → Response)
    (evalFn : EvalFn) (fs0 : FS) :
    tinyagent_script none now llm evalFn fs0 =
      (.error (.openaiError
        "The api_key client option must be set either by passing api_key to the client or by setting the OPENAI_API_KEY environment variable"),
       { printed := [], fs := fs0, ranAgent := false }) := rfl

/-- C10: importing connectors/ynab.py executes the module-level example
calls unconditionally.  With `YNAB_TOKEN` unset the import raises the
`get_headers` `ValueError` before issuing any request (the `@tool`
decorations are mere attribute marks already applied; nothing is ever
registered with or dispatched by tinyagent.py, which never imports this
module).  With a (nonempty) token set, merely importing issues live
network requests, starting with `GET <BASE_URL>/budgets`. -/
theorem c10_module_import_side_effects :
    (∀ http : Http, ynab_module_init none http =
      (.error (.valueError "YNAB_TOKEN not found in environment variables"), [])) ∧
    (∀ (tok : String) (http : Http), tok ≠ "" →
      ∃ rest, (ynab_module_init (some tok) http).2 =
        { method := "GET", url := BASE_URL ++ "/budgets",
          headers := [("Authorization", "Bearer " ++ tok)],
          body := none } :: rest) := by
  constructor
  · intro http
    rfl
  · intro tok http htok
    simp only [ynab_module_init, get_budgets, get_headers, if_neg htok]
    rcases budgets_result
        (http { method := "GET", url := BASE_URL ++ "/budgets",
                headers := [("Authorization", "Bearer " ++ tok)], body := none }) with e | v
    · exact ⟨[], rfl⟩
    · simp only
      rcases hx : get_transactions (some tok) http exampleBudgetId "2025-05-02" none
        with ⟨r2, l2⟩
      cases r2 with
      | error e => exact ⟨l2, rfl⟩
      | ok w =>
          simp only
          rcases hy : get_budget_summary (some tok) http exampleBudgetId with ⟨r3, l3⟩
          cases r3 with
          | error e => exact ⟨l2 ++ l3, rfl⟩
          | ok w2 => exact ⟨l2 ++ l3, rfl⟩

/-- Reading back a path just written yields the just-written records. -/
theorem lookupFS_insertFS (fs : FS) (k : String) (v : List Record) :
    lookupFS (insertFS fs k v) k = some v := by
  induction fs with
  | nil => simp [insertFS, lookupFS]
  | cons p rest ih =>
      by_cases h : p.1 = k
      · simp [insertFS, lookupFS, h]
      · simp [insertFS, lookupFS, h, ih]

/-- Assigning a fresh key to a Python dict appends the pair. -/
theorem setEntry_notMem (acc : List (Option String × PyObj)) (k : Option String)
    (v : PyObj) (h : k ∉ acc.map Prod.fst) : setEntry acc k v = acc ++ [(k, v)] := by
  induction acc with
  | nil => rfl
  | cons p rest ih =>
      simp only [List.map_cons, List.mem_cons] at h
      push_neg at h
      simp only [setEntry, if_neg (Ne.symm h.1), List.cons_append]
      rw [ih h.2]

/-- Folding dict assignment over pairs with fresh keys appends them in
order. -/
theorem buildDict_go (l acc : List (Option String × PyObj))
    (h : ((acc ++ l).map Prod.fst).Nodup) :
    List.foldl (fun acc p => setEntry acc p.1 p.2) acc l = acc ++ l := by
  induction l generalizing acc with
  | nil => simp
  | cons p l ih =>
      have hnm : p.1 ∉ acc.map Prod.fst := by
        intro hmem
        rw [List.map_append, List.nodup_append] at h
        exact h.2.2 hmem (by simp)
      rw [List.foldl_cons, setEntry_notMem acc p.1 p.2 hnm]
      rw [ih (acc ++ [p]) (by simpa using h)]
      simp

/-- A pair list with duplicate-free keys already is the dict it
builds. -/
theorem buildDict_nodup (l : List (Option String × PyObj))
    (h : (l.map Prod.fst).Nodup) : buildDict l = l := by
  have := buildDict_go l [] (by simpa using h)
  simpa [buildDict] using this

/-- Pairing a record with a duplicate-free header of the same length
reconstructs exactly the dict whose keys are the header and whose
values are the record. -/
theorem readerRow_exact (row : List (String × String))
    (h : (row.map Prod.fst).Nodup) :
    readerRow (row.map Prod.fst) (row.map Prod.snd) =
      row.map (fun p => ((some p.1 : Option String), PyObj.pstr p.2)) := by
  unfold readerRow
  have h1 : ¬ (row.map Prod.fst).length < (row.map Prod.snd).length := by simp
  have h2 : (row.map Prod.fst).drop (row.map Prod.snd).length = [] := by
    simp [List.drop_length]
  simp only [if_neg h1, h2, List.map_nil, List.append_nil, List.zip_map', List.map_map]
  refine buildDict_nodup _ ?_
  rw [List.map_map]
  have heq : (Prod.fst ∘ ((fun p => ((some p.1 : Option String), PyObj.pstr p.2)) ∘
      fun a => (a.1, a.2))) = ((fun s => some s) ∘ (Prod.fst : String × String → String)) := rfl
  rw [heq, ← List.map_map]
  exact List.Nodup.map (fun a b hab => Option.some.inj hab) h

/-- Computed form of `write_csv` on a string-valued row: header from
the row's keys when the file is new, the row's values appended in the
row's own key order. -/
theorem write_csv_strings (name : String) (row : List (String × String)) (fs : FS) :
    write_csv (.pstr name)
        (.pdict (row.map fun p => ((some p.1 : Option String), .pstr p.2))) fs =
      (.ok .pnone,
       insertFS fs ("mem/" ++ name ++ ".csv")
         (match lookupFS fs ("mem/" ++ name ++ ".csv") with
          | none => [row.map Prod.fst, row.map Prod.snd]
          | some recs => recs ++ [row.map Prod.snd])) := by
  simp only [write_csv, List.map_map]
  have hk : ((fun e : Option String × PyObj => keyStr e.1) ∘ fun p : String × String =>
      ((some p.1 : Option String), PyObj.pstr p.2)) = Prod.fst := by
    funext p
    rfl
  have hv : ((fun e : Option String × PyObj => pyStr e.2) ∘ fun p : String × String =>
      ((some p.1 : Option String), PyObj.pstr p.2)) = Prod.snd := by
    funext p
    rfl
  rw [hk, hv]
  rfl

/-- C7 (amended): the write/read round trip holds for rows whose keys
match the collection's header in order.  Writing a (nonempty,
duplicate-free-keyed, string-valued) row to a fresh collection and
reading it back returns exactly that row as a mapping; appending a
second row that lists the same keys in the same order preserves the
first row and returns both, in append order. -/
theorem c7_roundtrip (name : String) (row row2 : List (String × String)) (fs : FS)
    (h0 : lookupFS fs ("mem/" ++ name ++ ".csv") = none)
    (h1 : row ≠ [])
    (h2 : (row.map Prod.fst).Nodup)
    (h3 : row2.map Prod.fst = row.map Prod.fst) :
    ∃ fs1 fs2,
      write_csv (.pstr name)
          (.pdict (row.map fun p => ((some p.1 : Option String), .pstr p.2))) fs
        = (.ok .pnone, fs1) ∧
      read_csv (.pstr name) fs1 =
        .ok (.plist [.pdict (row.map fun p => ((some p.1 : Option String), .pstr p.2))]) ∧
      write_csv (.pstr name)
          (.pdict (row2.map fun p => ((some p.1 : Option String), .pstr p.2))) fs1
        = (.ok .pnone, fs2) ∧
      read_csv (.pstr name) fs2 =
        .ok (.plist [.pdict (row.map fun p => ((some p.1 : Option String), .pstr p.2)),
                     .pdict (row2.map fun p => ((some p.1 : Option String), .pstr p.2))]) := by
  have h1b : row2 ≠ [] := by
    intro hnil
    rw [hnil] at h3
    cases hrow : row with
    | nil => exact h1 hrow
    | cons p l => rw [hrow] at h3; simp at h3
  have hv : (row.map Prod.snd).isEmpty = false := by
    cases row with
    | nil => exact absurd rfl h1
    | cons p l => rfl
  have hv2 : (row2.map Prod.snd).isEmpty = false := by
    cases row2 with
    | nil => exact absurd rfl h1b
    | cons p l => rfl
  refine ⟨insertFS fs ("mem/" ++ name ++ ".csv") [row.map Prod.fst, row.map Prod.snd],
    insertFS (insertFS fs ("mem/" ++ name ++ ".csv") [row.map Prod.fst, row.map Prod.snd])
      ("mem/" ++ name ++ ".csv")
      [row.map Prod.fst, row.map Prod.snd, row2.map Prod.snd], ?_, ?_, ?_, ?_⟩
  · rw [write_csv_strings, h0]
  · simp [read_csv, pyStr_pstr, lookupFS_insertFS, dictReaderParse, hv]
    rw [readerRow_exact row h2]
  · simp [write_csv_strings, lookupFS_insertFS]
  · simp [read_csv, pyStr_pstr, lookupFS_insertFS, dictReaderParse, hv, hv2]
    rw [readerRow_exact row h2, ← h3, readerRow_exact row2 (by rw [h3]; exact h2)]
    exact ⟨rfl, rfl⟩

/-- Witness for `c7_roundtrip`: the collection `t`, first row
`a = 1, b = 2`, second row `a = x, b = y`, starting from an empty
store. -/
theorem c7_roundtrip_witness :
    lookupFS [] ("mem/t.csv") = none ∧
    ([("a", "1"), ("b", "2")] : List (String × String)) ≠ [] ∧
    (([("a", "1"), ("b", "2")] : List (String × String)).map Prod.fst).Nodup ∧
    (([("a", "x"), ("b", "y")] : List (String × String)).map Prod.fst =
      ([("a", "1"), ("b", "2")] : List (String × String)).map Prod.fst) ∧
    (∃ fs1 fs2,
      write_csv (.pstr "t")
          (.pdict (([("a", "1"), ("b", "2")] : List (String × String)).map
            fun p => ((some p.1 : Option String), .pstr p.2))) []
        = (.ok .pnone, fs1) ∧
      read_csv (.pstr "t") fs1 =
        .ok (.plist [.pdict (([("a", "1"), ("b", "2")] : List (String × String)).map
          fun p => ((some p.1 : Option String), .pstr p.2))]) ∧
      write_csv (.pstr "t")
          (.pdict (([("a", "x"), ("b", "y")] : List (String × String)).map
            fun p => ((some p.1 : Option String), .pstr p.2))) fs1
        = (.ok .pnone, fs2) ∧
      read_csv (.pstr "t") fs2 =
        .ok (.plist [.pdict (([("a", "1"), ("b", "2")] : List (String × String)).map
            fun p => ((some p.1 : Option String), .pstr p.2)),
          .pdict (([("a", "x"), ("b", "y")] : List (String × String)).map
            fun p => ((some p.1 : Option String), .pstr p.2))])) :=
  ⟨rfl, by decide, by decide, rfl,
   c7_roundtrip "t" [("a", "1"), ("b", "2")] [("a", "x"), ("b", "y")] []
     rfl (by decide) (by decide) rfl⟩

/-- Counterexample to C7 as stated: appending a row whose keys come in
a different order than the collection's header stores its values under
the wrong columns.  After writing `a = 1, b = 2` and then the row
`b = x, a = y`, reading the collection returns the mappings
`a = 1, b = 2` and `a = x, b = y` — no returned mapping equals the
written row `b = x, a = y`, which assigns `y` to `a`. -/
theorem c7_counterexample :
    write_csv (.pstr "t") (.pdict [(some "a", .pstr "1"), (some "b", .pstr "2")]) []
      = (.ok .pnone, [("mem/t.csv", [["a", "b"], ["1", "2"]])]) ∧
    write_csv (.pstr "t") (.pdict [(some "b", .pstr "x"), (some "a", .pstr "y")])
        [("mem/t.csv", [["a", "b"], ["1", "2"]])]
      = (.ok .pnone, [("mem/t.csv", [["a", "b"], ["1", "2"], ["x", "y"]])]) ∧
    read_csv (.pstr "t") [("mem/t.csv", [["a", "b"], ["1", "2"], ["x", "y"]])]
      = .ok (.plist [.pdict [(some "a", .pstr "1"), (some "b", .pstr "2")],
                     .pdict [(some "a", .pstr "x"), (some "b", .pstr "y")]]) ∧
    ¬ pyDictEqv [(some "a", .pstr "1"), (some "b", .pstr "2")]
        [(some "b", .pstr "x"), (some "a", .pstr "y")] ∧
    ¬ pyDictEqv [(some "a", .pstr "x"), (some "b", .pstr "y")]
        [(some "b", .pstr "x"), (some "a", .pstr "y")] :=
  ⟨rfl, rfl, rfl,
   fun h => by have hx := h (some "a"); simp [dictLookup] at hx,
   fun h => by have hx := h (some "a"); simp [dictLookup] at hx⟩
